import Mathlib

/-!
Verification of the node/resource core of the rg3d scene-graph engine.

The development shallowly embeds the analyzed Rust sources:
  src/scene/base.rs      (Base, BaseBuilder, Clone, Default, Visit impls)
  src/resource/texture.rs (Texture, TextureKind, Visit, load_from_file)
  src/engine/mod.rs      (Engine::update, impl Visit for Engine)
Types that live outside the analyzed sources (core math, the visitor
machinery, Handle, Model resources, the image decoder) are modelled from
the specification document, with a doc comment marking each such model.
-/

set_option autoImplicit false

namespace Rg3d

/-- Modelled from the spec: 32-bit floats appear in the analyzed code only as
stored-and-copied payloads (lifetimes, matrix entries, time deltas); no float
arithmetic is performed by any analyzed function, so an f32 is modelled as an
opaque bit pattern. -/
structure F32 where
  bits : Nat
  deriving DecidableEq, Repr

/-- Representative bit pattern for 0.0. -/
def F32.zero : F32 := ⟨0⟩

/-- Representative bit pattern for 1.0. -/
def F32.one : F32 := ⟨1⟩

/-- Modelled from the spec: Handle is an (index, generation) pair of u32,
independent of any in-memory address; the analyzed code only stores and
compares handles, so the u32 bounds are immaterial here. -/
structure Handle where
  index : Nat
  generation : Nat
  deriving DecidableEq, Repr

/-- Modelled from the spec: the NONE handle is index 0 / generation 0,
reserved as the no-reference value. -/
def Handle.NONE : Handle := ⟨0, 0⟩

/-- Modelled from the spec: a 4x4 matrix of f32 entries (row major). The
analyzed code only copies matrices and compares against the identity. -/
structure Mat4 where
  entries : List F32
  deriving DecidableEq, Repr

/-- Modelled from the spec: the identity matrix constant Mat4::IDENTITY. -/
def Mat4.IDENTITY : Mat4 :=
  ⟨[F32.one,  F32.zero, F32.zero, F32.zero,
    F32.zero, F32.one,  F32.zero, F32.zero,
    F32.zero, F32.zero, F32.one,  F32.zero,
    F32.zero, F32.zero, F32.zero, F32.one]⟩

/-- Modelled from the spec: a 3-component f32 vector. -/
structure Vec3 where
  x : F32
  y : F32
  z : F32
  deriving DecidableEq, Repr

/-- Modelled from the spec: a rotation quaternion. -/
structure Quat where
  x : F32
  y : F32
  z : F32
  w : F32
  deriving DecidableEq, Repr

/-- Modelled from the spec: Transform holds position, rotation, scale and
pre/post rotation offsets. The analyzed code only constructs the identity
transform and copies transforms whole. -/
structure Transform where
  position : Vec3
  rotation : Quat
  scale : Vec3
  pre_rotation : Quat
  post_rotation : Quat
  deriving DecidableEq, Repr

/-- Modelled from the spec: Transform::identity — zero position and offsets,
identity rotation, unit scale. -/
def Transform.identity : Transform :=
  { position := ⟨F32.zero, F32.zero, F32.zero⟩
    rotation := ⟨F32.zero, F32.zero, F32.zero, F32.one⟩
    scale := ⟨F32.one, F32.one, F32.one⟩
    pre_rotation := ⟨F32.zero, F32.zero, F32.zero, F32.one⟩
    post_rotation := ⟨F32.zero, F32.zero, F32.zero, F32.one⟩ }

/-- Modelled from the spec: a Model resource is shared through
Arc\<Mutex\<Model\>\>; cloning such a field in Rust copies the Arc pointer
(shared ownership, no deep copy), so the field is modelled by the identity
of the shared allocation. -/
structure ModelRef where
  ptr : Nat
  deriving DecidableEq, Repr

/-- The Base node data, field for field after struct Base in
src/scene/base.rs. -/
structure Base where
  name : String
  local_transform : Transform
  visibility : Bool
  global_visibility : Bool
  parent : Handle
  children : List Handle
  global_transform : Mat4
  inv_bind_pose_transform : Mat4
  resource : Option ModelRef
  original : Handle
  is_resource_instance : Bool
  lifetime : Option F32
  deriving DecidableEq, Repr

/-- struct BaseBuilder in src/scene/base.rs. -/
structure BaseBuilder where
  name : Option String
  visibility : Option Bool
  local_transform : Option Transform
  children : Option (List Handle)
  lifetime : Option F32
  deriving DecidableEq, Repr

/-- BaseBuilder::new. -/
def BaseBuilder.new : BaseBuilder :=
  { name := none
    visibility := none
    local_transform := none
    children := none
    lifetime := none }

/-- BaseBuilder::with_name. -/
def BaseBuilder.with_name (b : BaseBuilder) (name : String) : BaseBuilder :=
  { b with name := some name }

/-- BaseBuilder::with_visibility. -/
def BaseBuilder.with_visibility (b : BaseBuilder) (visibility : Bool) : BaseBuilder :=
  { b with visibility := some visibility }

/-- BaseBuilder::with_local_transform. -/
def BaseBuilder.with_local_transform (b : BaseBuilder) (transform : Transform) : BaseBuilder :=
  { b with local_transform := some transform }

/-- BaseBuilder::with_children. -/
def BaseBuilder.with_children (b : BaseBuilder) (children : List Handle) : BaseBuilder :=
  { b with children := some children }

/-- BaseBuilder::with_lifetime. -/
def BaseBuilder.with_lifetime (b : BaseBuilder) (time_seconds : F32) : BaseBuilder :=
  { b with lifetime := some time_seconds }

/-- BaseBuilder::build — unwrap_or_default on name and children (empty
string, empty vector), unwrap_or_else(Transform::identity) on the local
transform, unwrap_or(true) on visibility, and fixed values for the rest. -/
def BaseBuilder.build (b : BaseBuilder) : Base :=
  { name := b.name.getD ""
    children := b.children.getD []
    local_transform := b.local_transform.getD Transform.identity
    lifetime := b.lifetime
    visibility := b.visibility.getD true
    global_visibility := true
    parent := Handle.NONE
    global_transform := Mat4.IDENTITY
    inv_bind_pose_transform := Mat4.IDENTITY
    resource := none
    original := Handle.NONE
    is_resource_instance := false }

/-- impl Default for Base: BaseBuilder::new().build(). -/
def Base.default : Base := BaseBuilder.new.build

/-- impl Clone for Base ("Shallow copy of node data"): name, local and
global transforms, visibility flags, bind-pose matrix, resource pointer,
resource-instance flag and lifetime are copied from self; the remaining
fields (parent, children, original) come from Default::default(). -/
def Base.clone (b : Base) : Base :=
  { Base.default with
    name := b.name
    local_transform := b.local_transform
    global_transform := b.global_transform
    visibility := b.visibility
    global_visibility := b.global_visibility
    inv_bind_pose_transform := b.inv_bind_pose_transform
    resource := b.resource
    is_resource_instance := b.is_resource_instance
    lifetime := b.lifetime }

/-- Base::set_name. -/
def Base.set_name (b : Base) (name : String) : Base :=
  { b with name := name }

/-- Base::get_name. -/
def Base.get_name (b : Base) : String :=
  b.name

/-- Base::get_local_transform. -/
def Base.get_local_transform (b : Base) : Transform :=
  b.local_transform

/-- Base::set_local_transform. -/
def Base.set_local_transform (b : Base) (transform : Transform) : Base :=
  { b with local_transform := transform }

/-- Base::set_lifetime. -/
def Base.set_lifetime (b : Base) (time_seconds : F32) : Base :=
  { b with lifetime := some time_seconds }

/-- Base::get_lifetime. -/
def Base.get_lifetime (b : Base) : Option F32 :=
  b.lifetime

/-- Base::set_visibility. -/
def Base.set_visibility (b : Base) (visibility : Bool) : Base :=
  { b with visibility := visibility }

/-- Base::get_visibility. -/
def Base.get_visibility (b : Base) : Bool :=
  b.visibility

/-- Modelled from the spec: a GPU-side texture handle (non-serializable,
attached by the renderer); the analyzed code only stores Option values of
it. -/
structure GpuTexture where
  id : Nat
  deriving DecidableEq, Repr

/-- enum TextureKind in src/resource/texture.rs. -/
inductive TextureKind where
  | R8
  | RGB8
  | RGBA8
  deriving DecidableEq, Repr

/-- TextureKind::new — wire id to kind, erring on any id other than 0, 1, 2
with the message produced by format in the source. -/
def TextureKind.new (id : Nat) : Except String TextureKind :=
  match id with
  | 0 => .ok TextureKind.R8
  | 1 => .ok TextureKind.RGB8
  | 2 => .ok TextureKind.RGBA8
  | _ => .error ("Invalid texture kind " ++ toString id ++ "!")

/-- TextureKind::id — kind to wire id. -/
def TextureKind.id (k : TextureKind) : Nat :=
  match k with
  | TextureKind.R8 => 0
  | TextureKind.RGB8 => 1
  | TextureKind.RGBA8 => 2

/-- struct Texture in src/resource/texture.rs; the path is the string form
of the PathBuf, bytes are the raw u8 payload. -/
structure Texture where
  path : String
  width : Nat
  height : Nat
  gpu_tex : Option GpuTexture
  bytes : List Nat
  kind : TextureKind
  loaded : Bool
  deriving DecidableEq, Repr

/-- impl Default for Texture. -/
def Texture.default : Texture :=
  { path := ""
    width := 0
    height := 0
    gpu_tex := none
    bytes := []
    kind := TextureKind.RGBA8
    loaded := false }

/-- Modelled from the spec: the decode interface of the external asset
importer — decode(path) yields width, height and the raw pixel buffers the
image crate can produce for each requested pixel kind (to_luma, to_rgb,
to_rgba). -/
structure DynImage where
  width : Nat
  height : Nat
  luma_bytes : List Nat
  rgb_bytes : List Nat
  rgba_bytes : List Nat
  deriving DecidableEq, Repr

/-- Modelled from the spec: a decode failure of the external asset
importer (image::ImageError). -/
structure ImageError where
  msg : String
  deriving DecidableEq, Repr

/-- Texture::load_from_file — opens the image through the external decode
interface, picks the byte buffer matching the requested kind, and returns
a loaded texture with no GPU handle. -/
def Texture.load_from_file (open_image : String → Except ImageError DynImage)
    (path : String) (kind : TextureKind) : Except ImageError Texture :=
  match open_image path with
  | .error e => .error e
  | .ok dyn_img =>
    let bytes : List Nat :=
      match kind with
      | TextureKind.R8 => dyn_img.luma_bytes
      | TextureKind.RGB8 => dyn_img.rgb_bytes
      | TextureKind.RGBA8 => dyn_img.rgba_bytes
    .ok { kind := kind
          width := dyn_img.width
          height := dyn_img.height
          bytes := bytes
          path := path
          gpu_tex := none
          loaded := true }

/-- Texture::is_loaded. -/
def Texture.is_loaded (t : Texture) : Bool :=
  t.loaded

/-- Modelled from the spec: the typed values a serialized region stores
under field names. Composite values (handles, vectors of handles, options,
transforms, paths) are kept as single tagged payloads; each carries its
type tag so that reading with a different expected type fails. -/
inductive FieldValue where
  | vString (s : String)
  | vBool (b : Bool)
  | vU32 (n : Nat)
  | vOptF32 (x : Option F32)
  | vHandle (h : Handle)
  | vHandleList (hs : List Handle)
  | vOptResource (r : Option ModelRef)
  | vTransform (t : Transform)
  | vPath (p : String)
  deriving DecidableEq, Repr

/-- Modelled from the spec: the error taxonomy of the visitor — region not
found, field not found, stored type id mismatch, and a custom message
converted from a String error (as TextureKind::new produces). -/
inductive VisitError where
  | regionNotFound
  | fieldNotFound
  | typeMismatch
  | custom (msg : String)
  deriving DecidableEq, Repr

/-- Association lookup on a field or region list by name. -/
def lookupByName {α : Type} : List (String × α) → String → Option α
  | [], _ => none
  | (k, v) :: rest, key => if k = key then some v else lookupByName rest key

/-- Modelled from the spec: the visitor state restricted to what the
analyzed visit implementations exercise — a mode flag, the named child
regions available to a reading visitor (each a list of named fields), the
fields of the currently entered region when reading, and, when writing,
the name of the entered region and the ordered list of fields written into
it. -/
structure Visitor where
  reading : Bool
  childRegions : List (String × List (String × FieldValue))
  cur : List (String × FieldValue)
  inRegion : Bool
  regionName : String
  written : List (String × FieldValue)
  deriving DecidableEq, Repr

/-- Visitor::enter_region — reading looks the child region up by name and
fails with a NotFound-style error when absent; writing creates the named
child region and makes it current. -/
def Visitor.enterRegion (vis : Visitor) (name : String) : Except VisitError Visitor :=
  if vis.reading then
    match lookupByName vis.childRegions name with
    | some fields => .ok { vis with cur := fields, inRegion := true, regionName := name }
    | none => .error VisitError.regionNotFound
  else
    .ok { vis with inRegion := true, regionName := name, written := [] }

/-- Visitor::leave_region — pops back to the parent; fails at the root. -/
def Visitor.leaveRegion (vis : Visitor) : Except VisitError Visitor :=
  if vis.inRegion then
    .ok { vis with inRegion := false }
  else
    .error VisitError.regionNotFound

/-- Modelled from the spec: one field.visit(name, visitor) call — reading
looks the name up in the current region and fails with a TypeMismatch-style
error when the stored tag differs from the expected type (and with a
not-found error when the field is absent); writing serializes the value
into the current region under that name. -/
def Visitor.visitField {α : Type} (enc : α → FieldValue) (dec : FieldValue → Option α)
    (name : String) (val : α) (vis : Visitor) : Except VisitError (α × Visitor) :=
  if vis.reading then
    match lookupByName vis.cur name with
    | some stored =>
      match dec stored with
      | some a => .ok (a, vis)
      | none => .error VisitError.typeMismatch
    | none => .error VisitError.fieldNotFound
  else
    .ok (val, { vis with written := vis.written ++ [(name, enc val)] })

/-- Decoder for String fields. -/
def decString : FieldValue → Option String
  | FieldValue.vString s => some s
  | _ => none

/-- Decoder for bool fields. -/
def decBool : FieldValue → Option Bool
  | FieldValue.vBool b => some b
  | _ => none

/-- Decoder for u32 fields. -/
def decU32 : FieldValue → Option Nat
  | FieldValue.vU32 n => some n
  | _ => none

/-- Decoder for Option f32 fields. -/
def decOptF32 : FieldValue → Option (Option F32)
  | FieldValue.vOptF32 x => some x
  | _ => none

/-- Decoder for Handle fields. -/
def decHandle : FieldValue → Option Handle
  | FieldValue.vHandle h => some h
  | _ => none

/-- Decoder for Vec of Handle fields. -/
def decHandleList : FieldValue → Option (List Handle)
  | FieldValue.vHandleList hs => some hs
  | _ => none

/-- Decoder for optional resource fields. -/
def decOptResource : FieldValue → Option (Option ModelRef)
  | FieldValue.vOptResource r => some r
  | _ => none

/-- Decoder for Transform fields. -/
def decTransform : FieldValue → Option Transform
  | FieldValue.vTransform t => some t
  | _ => none

/-- Decoder for PathBuf fields. -/
def decPath : FieldValue → Option String
  | FieldValue.vPath p => some p
  | _ => none

/-- impl Visit for Base in src/scene/base.rs — enters the caller-named
region, visits Name, Transform, Visibility, Parent, Children, Resource,
IsResourceInstance and Lifetime in that order, and leaves the region. In
reading mode each visited field of self is replaced by the decoded value;
in writing mode self is read and left as is. -/
def Base.visit (b : Base) (name : String) (vis : Visitor) :
    Except VisitError (Base × Visitor) := do
  let vis ← vis.enterRegion name
  let (nm, vis) ← vis.visitField FieldValue.vString decString "Name" b.name
  let (tr, vis) ← vis.visitField FieldValue.vTransform decTransform "Transform" b.local_transform
  let (vb, vis) ← vis.visitField FieldValue.vBool decBool "Visibility" b.visibility
  let (pa, vis) ← vis.visitField FieldValue.vHandle decHandle "Parent" b.parent
  let (ch, vis) ← vis.visitField FieldValue.vHandleList decHandleList "Children" b.children
  let (rs, vis) ← vis.visitField FieldValue.vOptResource decOptResource "Resource" b.resource
  let (ri, vis) ← vis.visitField FieldValue.vBool decBool "IsResourceInstance" b.is_resource_instance
  let (lt, vis) ← vis.visitField FieldValue.vOptF32 decOptF32 "Lifetime" b.lifetime
  let vis ← vis.leaveRegion
  .ok ({ b with
          name := nm
          local_transform := tr
          visibility := vb
          parent := pa
          children := ch
          resource := rs
          is_resource_instance := ri
          lifetime := lt }, vis)

/-- The guarded reassignment of self.kind in Texture::visit: only when the
visitor is reading is the visited id converted through TextureKind::new,
whose String error is converted into the visitor error type and
propagated; when writing, self.kind stays as it is. -/
def kindAfterVisit (reading : Bool) (cur : TextureKind) (kindId : Nat) :
    Except VisitError TextureKind :=
  if reading then
    match TextureKind.new kindId with
    | .ok k => .ok k
    | .error msg => .error (VisitError.custom msg)
  else
    .ok cur

/-- impl Visit for Texture in src/resource/texture.rs — enters the region,
visits the kind id under KindId (reading then converts it through
TextureKind::new, propagating its error), visits the path under Path, and
leaves the region. -/
def Texture.visit (t : Texture) (name : String) (vis : Visitor) :
    Except VisitError (Texture × Visitor) := do
  let vis ← vis.enterRegion name
  let (kindId, vis) ← vis.visitField FieldValue.vU32 decU32 "KindId" t.kind.id
  let newKind ← kindAfterVisit vis.reading t.kind kindId
  let (p, vis) ← vis.visitField FieldValue.vPath decPath "Path" t.path
  let vis ← vis.leaveRegion
  .ok ({ t with kind := newKind, path := p }, vis)

/-- Modelled from the spec: the observable steps of impl Visit for Engine.
The resource manager, scene container and sound context live outside the
analyzed sources, so their operations (resource_manager.update(),
scenes.clear(), each sub-region visit, reload_resources(), scene.resolve())
are recorded as events in the order Engine::visit performs them. -/
inductive EngStep where
  | enterRegion (name : String)
  | rmUpdate
  | scenesClear
  | visitRegion (name : String)
  | reloadResources
  | sceneResolve (i : Nat)
  | leaveRegion
  deriving DecidableEq, Repr

/-- Whether a step is one of the reading-only reset or post-read steps of
Engine::visit (resource bookkeeping tick, scene clearing, resource reload,
scene resolve). -/
def EngStep.isResetOrPost : EngStep → Bool
  | EngStep.rmUpdate => true
  | EngStep.scenesClear => true
  | EngStep.reloadResources => true
  | EngStep.sceneResolve _ => true
  | _ => false

/-- impl Visit for Engine in src/engine/mod.rs, as a trace function. The
Boolean parameters stand for the success of the fallible sub-steps
(enter_region in reading mode, the three sub-visits, and taking the sound
context lock); numScenes is the number of scenes in the container when the
post-read loop runs. The result pairs the ordered event trace with whether
visit returned Ok. -/
def Engine.visit (reading : Bool) (name : String)
    (enterOk rmOk scOk lockOk sndOk : Bool) (numScenes : Nat) :
    List EngStep × Bool :=
  if reading && !enterOk then ([], false) else
  let t1 := EngStep.enterRegion name ::
    (if reading then [EngStep.rmUpdate, EngStep.scenesClear] else [])
  let t2 := t1 ++ [EngStep.visitRegion "ResourceManager"]
  if !rmOk then (t2, false) else
  let t3 := t2 ++ [EngStep.visitRegion "Scenes"]
  if !scOk then (t3, false) else
  if !lockOk then (t3, false) else
  let t4 := t3 ++ [EngStep.visitRegion "SoundContext"]
  if !sndOk then (t4, false) else
  let t5 := t4 ++
    (if reading then
      EngStep.reloadResources :: (List.range numScenes).map EngStep.sceneResolve
    else [])
  (t5 ++ [EngStep.leaveRegion], true)

/-- Modelled from the spec: the aspect ratio handed to every scene update;
f32 division is outside the model, so the ratio is kept as the pair of
window dimensions it is computed from. -/
structure AspectRatio where
  width : Nat
  height : Nat
  deriving DecidableEq, Repr

/-- Modelled from the spec: the observable steps of Engine::update. The
resource manager, scenes and user interface live outside the analyzed
sources, so their tick operations are recorded as events in the order
Engine::update performs them. -/
inductive UpdStep where
  | computeAspect (a : AspectRatio)
  | rmUpdate
  | sceneUpdate (i : Nat) (a : AspectRatio) (dt : F32)
  | uiUpdate (width : Nat) (height : Nat) (dt : F32)
  deriving DecidableEq, Repr

/-- Engine::update in src/engine/mod.rs, as a trace function over the
current window size, the number of scenes in the container, and the time
delta. -/
def Engine.update (width height numScenes : Nat) (dt : F32) : List UpdStep :=
  let aspect_ratio : AspectRatio := ⟨width, height⟩
  UpdStep.computeAspect aspect_ratio ::
  UpdStep.rmUpdate ::
  ((List.range numScenes).map (fun i => UpdStep.sceneUpdate i aspect_ratio dt) ++
   [UpdStep.uiUpdate width height dt])

/-- Helper: a fresh reading visitor offering one named child region with the
given stored fields. -/
def readVisitor (name : String) (fields : List (String × FieldValue)) : Visitor :=
  { reading := true
    childRegions := [(name, fields)]
    cur := []
    inRegion := false
    regionName := ""
    written := [] }

/-- Helper: a fresh writing visitor. -/
def writeVisitor : Visitor :=
  { reading := false
    childRegions := []
    cur := []
    inRegion := false
    regionName := ""
    written := [] }

/-- A concrete Base whose global transform is not the identity matrix. -/
def skewedBase : Base :=
  { Base.default with global_transform := ⟨[F32.zero]⟩ }

/-- C1 counterexample: the claim says the clone's global_transform is reset
to the identity, but Base::clone copies self.global_transform, so cloning a
base with a non-identity global transform yields a non-identity global
transform. -/
theorem c1_clone_global_transform_not_reset :
    (Base.clone skewedBase).global_transform ≠ Mat4.IDENTITY := by
  decide

/-- C1 (amended): Base::clone copies name, local_transform, visibility,
global_visibility, global_transform, inv_bind_pose_transform, resource,
is_resource_instance and lifetime from the source, while parent, children
and original are reset to their defaults (Handle::NONE, empty,
Handle::NONE); the clone shares no graph edges with the source. -/
theorem c1_clone_copies_data_resets_edges (b : Base) :
    (Base.clone b).name = b.name ∧
    (Base.clone b).local_transform = b.local_transform ∧
    (Base.clone b).visibility = b.visibility ∧
    (Base.clone b).global_visibility = b.global_visibility ∧
    (Base.clone b).global_transform = b.global_transform ∧
    (Base.clone b).inv_bind_pose_transform = b.inv_bind_pose_transform ∧
    (Base.clone b).resource = b.resource ∧
    (Base.clone b).is_resource_instance = b.is_resource_instance ∧
    (Base.clone b).lifetime = b.lifetime ∧
    (Base.clone b).parent = Handle.NONE ∧
    (Base.clone b).children = [] ∧
    (Base.clone b).original = Handle.NONE :=
  ⟨rfl, rfl, rfl, rfl, rfl, rfl, rfl, rfl, rfl, rfl, rfl, rfl⟩

/-- C5: BaseBuilder::new().build() (= Base::default()) yields visibility
true, empty children, identity local transform, no resource, no lifetime,
empty name and parent NONE; and each with_ override makes build() use the
supplied value for its field. -/
theorem c5_builder_defaults_and_overrides :
    (BaseBuilder.new.build.visibility = true ∧
     BaseBuilder.new.build.children = [] ∧
     BaseBuilder.new.build.local_transform = Transform.identity ∧
     BaseBuilder.new.build.resource = none ∧
     BaseBuilder.new.build.lifetime = none ∧
     BaseBuilder.new.build.name = "" ∧
     BaseBuilder.new.build.parent = Handle.NONE ∧
     Base.default = BaseBuilder.new.build) ∧
    (∀ (bb : BaseBuilder) (s : String), (bb.with_name s).build.name = s) ∧
    (∀ (bb : BaseBuilder) (v : Bool), (bb.with_visibility v).build.visibility = v) ∧
    (∀ (bb : BaseBuilder) (tr : Transform),
      (bb.with_local_transform tr).build.local_transform = tr) ∧
    (∀ (bb : BaseBuilder) (cs : List Handle), (bb.with_children cs).build.children = cs) ∧
    (∀ (bb : BaseBuilder) (t : F32), (bb.with_lifetime t).build.lifetime = some t) := by
  exact ⟨⟨rfl, rfl, rfl, rfl, rfl, rfl, rfl, rfl⟩,
    fun bb s => rfl, fun bb v => rfl, fun bb tr => rfl, fun bb cs => rfl, fun bb t => rfl⟩

/-- C9: whatever overrides a BaseBuilder carries, build() fixes
global_visibility to true, parent and original to Handle::NONE, global and
inverse-bind-pose transforms to the identity, resource to None and
is_resource_instance to false. -/
theorem c9_builder_fixed_fields (bb : BaseBuilder) :
    bb.build.global_visibility = true ∧
    bb.build.parent = Handle.NONE ∧
    bb.build.global_transform = Mat4.IDENTITY ∧
    bb.build.inv_bind_pose_transform = Mat4.IDENTITY ∧
    bb.build.resource = none ∧
    bb.build.original = Handle.NONE ∧
    bb.build.is_resource_instance = false :=
  ⟨rfl, rfl, rfl, rfl, rfl, rfl, rfl⟩

/-- C10: the Base setters and getters satisfy the set-then-get round-trip
laws, and each setter leaves every other field unchanged. -/
theorem c10_setters_getters_roundtrip (b : Base) (s : String) (tr : Transform)
    (t : F32) (v : Bool) :
    ((b.set_lifetime t).get_lifetime = some t ∧
     (b.set_visibility v).get_visibility = v ∧
     (b.set_name s).get_name = s ∧
     (b.set_local_transform tr).get_local_transform = tr) ∧
    ((b.set_lifetime t).name = b.name ∧
     (b.set_lifetime t).local_transform = b.local_transform ∧
     (b.set_lifetime t).visibility = b.visibility ∧
     (b.set_lifetime t).global_visibility = b.global_visibility ∧
     (b.set_lifetime t).parent = b.parent ∧
     (b.set_lifetime t).children = b.children ∧
     (b.set_lifetime t).global_transform = b.global_transform ∧
     (b.set_lifetime t).inv_bind_pose_transform = b.inv_bind_pose_transform ∧
     (b.set_lifetime t).resource = b.resource ∧
     (b.set_lifetime t).original = b.original ∧
     (b.set_lifetime t).is_resource_instance = b.is_resource_instance) ∧
    ((b.set_visibility v).name = b.name ∧
     (b.set_visibility v).local_transform = b.local_transform ∧
     (b.set_visibility v).global_visibility = b.global_visibility ∧
     (b.set_visibility v).parent = b.parent ∧
     (b.set_visibility v).children = b.children ∧
     (b.set_visibility v).global_transform = b.global_transform ∧
     (b.set_visibility v).inv_bind_pose_transform = b.inv_bind_pose_transform ∧
     (b.set_visibility v).resource = b.resource ∧
     (b.set_visibility v).original = b.original ∧
     (b.set_visibility v).is_resource_instance = b.is_resource_instance ∧
     (b.set_visibility v).lifetime = b.lifetime) ∧
    ((b.set_name s).local_transform = b.local_transform ∧
     (b.set_name s).visibility = b.visibility ∧
     (b.set_name s).global_visibility = b.global_visibility ∧
     (b.set_name s).parent = b.parent ∧
     (b.set_name s).children = b.children ∧
     (b.set_name s).global_transform = b.global_transform ∧
     (b.set_name s).inv_bind_pose_transform = b.inv_bind_pose_transform ∧
     (b.set_name s).resource = b.resource ∧
     (b.set_name s).original = b.original ∧
     (b.set_name s).is_resource_instance = b.is_resource_instance ∧
     (b.set_name s).lifetime = b.lifetime) ∧
    ((b.set_local_transform tr).name = b.name ∧
     (b.set_local_transform tr).visibility = b.visibility ∧
     (b.set_local_transform tr).global_visibility = b.global_visibility ∧
     (b.set_local_transform tr).parent = b.parent ∧
     (b.set_local_transform tr).children = b.children ∧
     (b.set_local_transform tr).global_transform = b.global_transform ∧
     (b.set_local_transform tr).inv_bind_pose_transform = b.inv_bind_pose_transform ∧
     (b.set_local_transform tr).resource = b.resource ∧
     (b.set_local_transform tr).original = b.original ∧
     (b.set_local_transform tr).is_resource_instance = b.is_resource_instance ∧
     (b.set_local_transform tr).lifetime = b.lifetime) := by
  refine ⟨⟨rfl, rfl, rfl, rfl⟩, ?_, ?_, ?_, ?_⟩ <;>
    exact ⟨rfl, rfl, rfl, rfl, rfl, rfl, rfl, rfl, rfl, rfl, rfl⟩

/-- C6: Engine::update computes the aspect ratio from the window size,
then ticks the resource manager, then updates every scene in order with
that aspect ratio and dt, then ticks the user interface with the viewport
size and dt. -/
theorem c6_engine_update_order (width height numScenes : Nat) (dt : F32) :
    Engine.update width height numScenes dt =
      [UpdStep.computeAspect ⟨width, height⟩, UpdStep.rmUpdate] ++
      (List.range numScenes).map
        (fun i => UpdStep.sceneUpdate i ⟨width, height⟩ dt) ++
      [UpdStep.uiUpdate width height dt] := by
  simp [Engine.update]

/-- C2: in reading mode Engine::visit ticks the resource manager and clears
the scene container before visiting any sub-region, then visits exactly the
sibling regions ResourceManager, Scenes and SoundContext in that order, and
on a successful read reloads resources and resolves every scene; in writing
mode none of the reset or post-read steps ever occur. -/
theorem c2_engine_visit_order :
    (∀ (name : String) (n : Nat),
      Engine.visit true name true true true true true n =
        ([EngStep.enterRegion name, EngStep.rmUpdate, EngStep.scenesClear,
          EngStep.visitRegion "ResourceManager", EngStep.visitRegion "Scenes",
          EngStep.visitRegion "SoundContext", EngStep.reloadResources] ++
         (List.range n).map EngStep.sceneResolve ++ [EngStep.leaveRegion], true)) ∧
    (∀ (name : String) (enterOk rmOk scOk lockOk sndOk : Bool) (n : Nat),
      (Engine.visit false name enterOk rmOk scOk lockOk sndOk n).1.filter
        EngStep.isResetOrPost = []) := by
  constructor
  · intro name n
    simp [Engine.visit]
  · intro name enterOk rmOk scOk lockOk sndOk n
    cases rmOk <;> cases scOk <;> cases lockOk <;> cases sndOk <;>
      simp [Engine.visit, EngStep.isResetOrPost]

/-- Shared fact: TextureKind::new errs with the formatted invalid-kind
message on every id greater than 2. -/
theorem textureKind_new_invalid (n : Nat) (h : 2 < n) :
    TextureKind.new n = .error ("Invalid texture kind " ++ toString n ++ "!") := by
  obtain ⟨m, rfl⟩ : ∃ m, n = m + 3 := ⟨n - 3, by omega⟩
  rfl

/-- C3: the texture kind wire ids are R8=0, RGB8=1, RGBA8=2;
TextureKind::new inverts TextureKind::id on every kind, accepts exactly the
ids 0, 1, 2, errs with the explicit invalid-kind message on every other id,
and reading a Texture region whose stored KindId is outside 0..=2 fails
with that error rather than coercing. -/
theorem c3_texture_kind_wire_ids :
    (TextureKind.id TextureKind.R8 = 0 ∧ TextureKind.id TextureKind.RGB8 = 1 ∧
     TextureKind.id TextureKind.RGBA8 = 2) ∧
    (TextureKind.new 0 = .ok TextureKind.R8 ∧
     TextureKind.new 1 = .ok TextureKind.RGB8 ∧
     TextureKind.new 2 = .ok TextureKind.RGBA8) ∧
    (∀ k : TextureKind, TextureKind.new k.id = .ok k) ∧
    (∀ n : Nat, 2 < n →
      TextureKind.new n = .error ("Invalid texture kind " ++ toString n ++ "!")) ∧
    (∀ (t : Texture) (name p : String) (n : Nat), 2 < n →
      Texture.visit t name
          (readVisitor name [("KindId", FieldValue.vU32 n), ("Path", FieldValue.vPath p)]) =
        .error (VisitError.custom ("Invalid texture kind " ++ toString n ++ "!"))) := by
  refine ⟨⟨rfl, rfl, rfl⟩, ⟨rfl, rfl, rfl⟩, ?_, textureKind_new_invalid, ?_⟩
  · intro k
    cases k <;> rfl
  · intro t name p n h
    simp [Texture.visit, Visitor.enterRegion, Visitor.visitField, readVisitor,
      lookupByName, decU32, kindAfterVisit, bind, Except.bind,
      textureKind_new_invalid n h]

/-- C3 witness: instantiating the invalid-id branches at id 7. -/
theorem c3_texture_kind_wire_ids_witness :
    TextureKind.new 7 = .error ("Invalid texture kind " ++ toString 7 ++ "!") ∧
    Texture.visit Texture.default "T"
        (readVisitor "T" [("KindId", FieldValue.vU32 7), ("Path", FieldValue.vPath "a.png")]) =
      .error (VisitError.custom ("Invalid texture kind " ++ toString 7 ++ "!")) :=
  ⟨c3_texture_kind_wire_ids.2.2.2.1 7 (by decide),
   c3_texture_kind_wire_ids.2.2.2.2 Texture.default "T" "a.png" 7 (by decide)⟩

/-- Shared fact: a successful Except bind factors through a successful
first stage. -/
theorem except_bind_ok {ε α β : Type} (e : Except ε α) (f : α → Except ε β) (c : β)
    (h : e >>= f = .ok c) : ∃ a, e = .ok a ∧ f a = .ok c := by
  cases e with
  | error err => exact Except.noConfusion h
  | ok a => exact ⟨a, rfl, h⟩

/-- C8: Base::visit works inside one region named by its caller and
serializes exactly the eight fields Name, Transform, Visibility, Parent,
Children, Resource, IsResourceInstance, Lifetime in that order; reading
leaves global_transform, global_visibility, inv_bind_pose_transform and the
original handle at their pre-read values. -/
theorem c8_base_visit_fields_and_frame :
    (∀ (b : Base) (name : String) (vis : Visitor), vis.reading = false →
      Base.visit b name vis =
        .ok (b, { vis with
          inRegion := false
          regionName := name
          written := [("Name", FieldValue.vString b.name),
            ("Transform", FieldValue.vTransform b.local_transform),
            ("Visibility", FieldValue.vBool b.visibility),
            ("Parent", FieldValue.vHandle b.parent),
            ("Children", FieldValue.vHandleList b.children),
            ("Resource", FieldValue.vOptResource b.resource),
            ("IsResourceInstance", FieldValue.vBool b.is_resource_instance),
            ("Lifetime", FieldValue.vOptF32 b.lifetime)] })) ∧
    (∀ (b : Base) (name : String) (vis : Visitor) (b' : Base) (vis' : Visitor),
      vis.reading = true → Base.visit b name vis = .ok (b', vis') →
        b'.global_transform = b.global_transform ∧
        b'.global_visibility = b.global_visibility ∧
        b'.inv_bind_pose_transform = b.inv_bind_pose_transform ∧
        b'.original = b.original) := by
  constructor
  · intro b name vis h
    obtain ⟨r, cr, cur, ir, rn, w⟩ := vis
    simp only at h
    subst h
    rfl
  · intro b name vis b' vis' hr h
    unfold Base.visit at h
    obtain ⟨v1, h1, h⟩ := except_bind_ok _ _ _ h
    obtain ⟨⟨nm, v2⟩, h2, h⟩ := except_bind_ok _ _ _ h
    obtain ⟨⟨tr, v3⟩, h3, h⟩ := except_bind_ok _ _ _ h
    obtain ⟨⟨vb, v4⟩, h4, h⟩ := except_bind_ok _ _ _ h
    obtain ⟨⟨pa, v5⟩, h5, h⟩ := except_bind_ok _ _ _ h
    obtain ⟨⟨ch, v6⟩, h6, h⟩ := except_bind_ok _ _ _ h
    obtain ⟨⟨rs, v7⟩, h7, h⟩ := except_bind_ok _ _ _ h
    obtain ⟨⟨ri, v8⟩, h8, h⟩ := except_bind_ok _ _ _ h
    obtain ⟨⟨lt, v9⟩, h9, h⟩ := except_bind_ok _ _ _ h
    obtain ⟨v10, h10, h⟩ := except_bind_ok _ _ _ h
    injection h with hp
    injection hp with hb hv
    subst hb
    exact ⟨rfl, rfl, rfl, rfl⟩

/-- Witness data: the serialized form of a Base region, used to drive a
concrete successful read. -/
def sampleBaseFields : List (String × FieldValue) :=
  [("Name", FieldValue.vString "node"),
   ("Transform", FieldValue.vTransform Transform.identity),
   ("Visibility", FieldValue.vBool false),
   ("Parent", FieldValue.vHandle ⟨1, 2⟩),
   ("Children", FieldValue.vHandleList [⟨3, 4⟩]),
   ("Resource", FieldValue.vOptResource (some ⟨9⟩)),
   ("IsResourceInstance", FieldValue.vBool true),
   ("Lifetime", FieldValue.vOptF32 (some ⟨5⟩))]

/-- Witness data: the Base produced by reading sampleBaseFields into the
default Base. -/
def sampleReadBase : Base :=
  match Base.visit Base.default "Node" (readVisitor "Node" sampleBaseFields) with
  | .ok (b, _) => b
  | .error _ => Base.default

/-- Witness data: the visitor state after reading sampleBaseFields. -/
def sampleReadVisitor : Visitor :=
  match Base.visit Base.default "Node" (readVisitor "Node" sampleBaseFields) with
  | .ok (_, v) => v
  | .error _ => readVisitor "Node" sampleBaseFields

/-- C8 witness: a concrete write of the default Base and a concrete
successful read of sampleBaseFields. -/
theorem c8_base_visit_fields_and_frame_witness :
    (Base.visit Base.default "Node" writeVisitor =
      .ok (Base.default, { writeVisitor with
        inRegion := false
        regionName := "Node"
        written := [("Name", FieldValue.vString Base.default.name),
          ("Transform", FieldValue.vTransform Base.default.local_transform),
          ("Visibility", FieldValue.vBool Base.default.visibility),
          ("Parent", FieldValue.vHandle Base.default.parent),
          ("Children", FieldValue.vHandleList Base.default.children),
          ("Resource", FieldValue.vOptResource Base.default.resource),
          ("IsResourceInstance", FieldValue.vBool Base.default.is_resource_instance),
          ("Lifetime", FieldValue.vOptF32 Base.default.lifetime)] })) ∧
    (sampleReadBase.global_transform = Base.default.global_transform ∧
     sampleReadBase.global_visibility = Base.default.global_visibility ∧
     sampleReadBase.inv_bind_pose_transform = Base.default.inv_bind_pose_transform ∧
     sampleReadBase.original = Base.default.original) :=
  ⟨c8_base_visit_fields_and_frame.1 Base.default "Node" writeVisitor rfl,
   c8_base_visit_fields_and_frame.2 Base.default "Node"
     (readVisitor "Node" sampleBaseFields) sampleReadBase sampleReadVisitor rfl rfl⟩

/-- C4: Texture::visit serializes exactly KindId and Path; a write leaves
the texture unchanged, and a successful read changes at most kind and path,
leaving bytes, width, height, gpu_tex and loaded at their pre-read
values. -/
theorem c4_texture_visit_fields_and_frame :
    (∀ (t : Texture) (name : String) (vis : Visitor), vis.reading = false →
      Texture.visit t name vis =
        .ok (t, { vis with
          inRegion := false
          regionName := name
          written := [("KindId", FieldValue.vU32 t.kind.id),
            ("Path", FieldValue.vPath t.path)] })) ∧
    (∀ (t : Texture) (name : String) (vis : Visitor) (t' : Texture) (vis' : Visitor),
      vis.reading = true → Texture.visit t name vis = .ok (t', vis') →
        t'.bytes = t.bytes ∧
        t'.width = t.width ∧
        t'.height = t.height ∧
        t'.gpu_tex = t.gpu_tex ∧
        t'.loaded = t.loaded) := by
  constructor
  · intro t name vis h
    obtain ⟨r, cr, cur, ir, rn, w⟩ := vis
    simp only at h
    subst h
    rfl
  · intro t name vis t' vis' hr h
    unfold Texture.visit at h
    obtain ⟨v1, h1, h⟩ := except_bind_ok _ _ _ h
    obtain ⟨⟨kid, v2⟩, h2, h⟩ := except_bind_ok _ _ _ h
    obtain ⟨nk, h3, h⟩ := except_bind_ok _ _ _ h
    obtain ⟨⟨p, v3⟩, h4, h⟩ := except_bind_ok _ _ _ h
    obtain ⟨v4, h5, h⟩ := except_bind_ok _ _ _ h
    injection h with hp
    injection hp with ht hv
    subst ht
    exact ⟨rfl, rfl, rfl, rfl, rfl⟩

/-- Witness data: the Texture produced by reading a stored KindId of 0 and
a stored path into the default Texture. -/
def sampleReadTexture : Texture :=
  match Texture.visit Texture.default "Tex"
      (readVisitor "Tex" [("KindId", FieldValue.vU32 0), ("Path", FieldValue.vPath "t.png")]) with
  | .ok (t, _) => t
  | .error _ => Texture.default

/-- Witness data: the visitor state after that read. -/
def sampleReadTexVisitor : Visitor :=
  match Texture.visit Texture.default "Tex"
      (readVisitor "Tex" [("KindId", FieldValue.vU32 0), ("Path", FieldValue.vPath "t.png")]) with
  | .ok (_, v) => v
  | .error _ => writeVisitor

/-- C4 witness: a concrete write of the default Texture and a concrete
successful read that changes kind and path only. -/
theorem c4_texture_visit_fields_and_frame_witness :
    (Texture.visit Texture.default "Tex" writeVisitor =
      .ok (Texture.default, { writeVisitor with
        inRegion := false
        regionName := "Tex"
        written := [("KindId", FieldValue.vU32 Texture.default.kind.id),
          ("Path", FieldValue.vPath Texture.default.path)] })) ∧
    (sampleReadTexture.bytes = Texture.default.bytes ∧
     sampleReadTexture.width = Texture.default.width ∧
     sampleReadTexture.height = Texture.default.height ∧
     sampleReadTexture.gpu_tex = Texture.default.gpu_tex ∧
     sampleReadTexture.loaded = Texture.default.loaded) :=
  ⟨c4_texture_visit_fields_and_frame.1 Texture.default "Tex" writeVisitor rfl,
   c4_texture_visit_fields_and_frame.2 Texture.default "Tex"
     (readVisitor "Tex" [("KindId", FieldValue.vU32 0), ("Path", FieldValue.vPath "t.png")])
     sampleReadTexture sampleReadTexVisitor rfl rfl⟩

/-- C7: a default-constructed Texture is an unloaded placeholder — loaded
false, empty bytes, zero width and height, no GPU handle; and a successful
Texture::load_from_file yields loaded true, the given path and kind, the
decoded width, height and bytes for that kind, and no GPU handle. -/
theorem c7_texture_lifecycle :
    (Texture.default.loaded = false ∧
     Texture.default.bytes = [] ∧
     Texture.default.width = 0 ∧
     Texture.default.height = 0 ∧
     Texture.default.gpu_tex = none) ∧
    (∀ (open_image : String → Except ImageError DynImage) (path : String)
       (kind : TextureKind) (img : DynImage), open_image path = .ok img →
      Texture.load_from_file open_image path kind =
        .ok { path := path
              width := img.width
              height := img.height
              gpu_tex := none
              bytes :=
                match kind with
                | TextureKind.R8 => img.luma_bytes
                | TextureKind.RGB8 => img.rgb_bytes
                | TextureKind.RGBA8 => img.rgba_bytes
              kind := kind
              loaded := true }) := by
  refine ⟨⟨rfl, rfl, rfl, rfl, rfl⟩, ?_⟩
  intro open_image path kind img h
  simp [Texture.load_from_file, h]

/-- Witness data: a concrete decoded image. -/
def sampleImage : DynImage :=
  { width := 2
    height := 3
    luma_bytes := [7]
    rgb_bytes := [7, 8, 9]
    rgba_bytes := [7, 8, 9, 10] }

/-- C7 witness: loading through a decoder that succeeds with sampleImage
produces the expected loaded texture. -/
theorem c7_texture_lifecycle_witness :
    Texture.load_from_file (fun _ => .ok sampleImage) "tex.png" TextureKind.RGB8 =
      .ok { path := "tex.png"
            width := 2
            height := 3
            gpu_tex := none
            bytes := [7, 8, 9]
            kind := TextureKind.RGB8
            loaded := true } :=
  c7_texture_lifecycle.2 (fun _ => .ok sampleImage) "tex.png" TextureKind.RGB8
    sampleImage rfl

end Rg3d
